import Mathlib

/-!
Verification of the `automeet` repository against its specification.

Shallow embedding of the three source files:
  * `meet-01.py` (transcript analyzer, variant A, modelled under prefix `m1_`),
  * `meet-02.py` (transcript analyzer, variant B, modelled under prefix `m2_`),
  * `research.py` (research assistant).

Interactive console input is modelled as a list of strings consumed in order;
exhausting the list at a `console.input()` call models Python raising
`EOFError` (the flow aborts).  Console output, timestamps and the filesystem
are modelled by an event trace: backend calls, prompts shown to the human and
`OutputManager.save_output` calls are recorded as events in order.
-/

namespace Automeet

/-- The `SubCategory` string enum.  The two analyzer variants declare
different member sets; this inductive is the union of both, and the
per-variant membership is expressed by the `parseSub1`/`parseSub2` parsers
and the per-category validity predicates below. -/
inductive SubCategory where
  | assigned | proposed | blocked | completed
  | confirmed | rejected | deferred | approved
  | asked | answered | unresolved | implied
  | named | roles | teams | mentioned
  | immediate | short_term | medium_term | long_term
  | meetings | reviews | dependencies | decisions
  | technical | timeline | stakeholder | resource
  deriving DecidableEq

/-- The string value of each enum member (the Python enum's `value`: the
string a backend reply must supply for the member, as compared during
validation).  This is NOT how an f-string renders the member — see
`subcatRepr`. -/
def subcatStr : SubCategory → String
  | .assigned => "assigned"
  | .proposed => "proposed"
  | .blocked => "blocked"
  | .completed => "completed"
  | .confirmed => "confirmed"
  | .rejected => "rejected"
  | .deferred => "deferred"
  | .approved => "approved"
  | .asked => "asked"
  | .answered => "answered"
  | .unresolved => "unresolved"
  | .implied => "implied"
  | .named => "named"
  | .roles => "roles"
  | .teams => "teams"
  | .mentioned => "mentioned"
  | .immediate => "immediate"
  | .short_term => "short_term"
  | .medium_term => "medium_term"
  | .long_term => "long_term"
  | .meetings => "meetings"
  | .reviews => "reviews"
  | .dependencies => "dependencies"
  | .decisions => "decisions"
  | .technical => "technical"
  | .timeline => "timeline"
  | .stakeholder => "stakeholder"
  | .resource => "resource"

/-- How `f"{item.subcategory}"` renders an enum member into the markdown:
for a `str`-mixin `Enum` on Python 3.11+, `format()` falls back to
`Enum.__str__` and yields `ClassName.MEMBER`, the member's declared name
prefixed with the class name — not the member's value. -/
def subcatRepr : SubCategory → String
  | .assigned => "SubCategory.ASSIGNED"
  | .proposed => "SubCategory.PROPOSED"
  | .blocked => "SubCategory.BLOCKED"
  | .completed => "SubCategory.COMPLETED"
  | .confirmed => "SubCategory.CONFIRMED"
  | .rejected => "SubCategory.REJECTED"
  | .deferred => "SubCategory.DEFERRED"
  | .approved => "SubCategory.APPROVED"
  | .asked => "SubCategory.ASKED"
  | .answered => "SubCategory.ANSWERED"
  | .unresolved => "SubCategory.UNRESOLVED"
  | .implied => "SubCategory.IMPLIED"
  | .named => "SubCategory.NAMED"
  | .roles => "SubCategory.ROLES"
  | .teams => "SubCategory.TEAMS"
  | .mentioned => "SubCategory.MENTIONED"
  | .immediate => "SubCategory.IMMEDIATE"
  | .short_term => "SubCategory.SHORT_TERM"
  | .medium_term => "SubCategory.MEDIUM_TERM"
  | .long_term => "SubCategory.LONG_TERM"
  | .meetings => "SubCategory.MEETINGS"
  | .reviews => "SubCategory.REVIEWS"
  | .dependencies => "SubCategory.DEPENDENCIES"
  | .decisions => "SubCategory.DECISIONS"
  | .technical => "SubCategory.TECHNICAL"
  | .timeline => "SubCategory.TIMELINE"
  | .stakeholder => "SubCategory.STAKEHOLDER"
  | .resource => "SubCategory.RESOURCE"

/-- `InsightItem` from both analyzer variants: a flat record of three required
strings and a required subcategory. -/
structure InsightItem where
  point : String
  quote : String
  speaker : String
  subcategory : SubCategory
  deriving DecidableEq

/-- `MeetingInsight` from both analyzer variants: seven ordered sequences of
`InsightItem`, each defaulting to empty. -/
structure MeetingInsight where
  tasks : List InsightItem := []
  decisions : List InsightItem := []
  questions : List InsightItem := []
  attendees : List InsightItem := []
  deadlines : List InsightItem := []
  follow_ups : List InsightItem := []
  risks : List InsightItem := []
  deriving DecidableEq

/-- `MeetingInsight()` — the record with all seven sequences empty. -/
def emptyInsight : MeetingInsight := ⟨[], [], [], [], [], [], []⟩

/-- `all(len(getattr(insight, field)) == 0 for field in insight.model_fields)`
— the guard deciding the EMPTY branch of the review flow. -/
def allEmpty (m : MeetingInsight) : Bool :=
  m.tasks.isEmpty && m.decisions.isEmpty && m.questions.isEmpty &&
  m.attendees.isEmpty && m.deadlines.isEmpty && m.follow_ups.isEmpty &&
  m.risks.isEmpty

/-- Python `"\n".join(lines)`. -/
def joinLines : List String → String
  | [] => ""
  | [l] => l
  | l :: l2 :: ls => l ++ "\n" ++ joinLines (l2 :: ls)

/-- The four markdown lines appended for one item inside `to_markdown`
(identical in both source files).  The Category line embeds the enum via
an f-string, which renders `SubCategory.MEMBER` (see `subcatRepr`), not
the member's value. -/
def itemLines (it : InsightItem) : List String :=
  ["- **" ++ it.point ++ "**",
   "  - Quote: \"" ++ it.quote ++ "\"",
   "  - Speaker: " ++ it.speaker,
   "  - Category: " ++ subcatRepr it.subcategory ++ "\n"]

/-- The block of markdown lines one iteration of the `to_markdown` section
loop appends: the heading, then either the placeholder line or the item
lines, then the separating empty line. -/
def sectionLines (title : String) (items : List InsightItem) : List String :=
  (("## " ++ title) :: (if items = [] then ["No items found.\n"] else items.flatMap itemLines)) ++ [""]

/-- All lines accumulated by `to_markdown` before the final join, in order. -/
def mdLines (m : MeetingInsight) : List String :=
  ["# Meeting Analysis Results\n"]
    ++ sectionLines "Tasks" m.tasks
    ++ sectionLines "Decisions" m.decisions
    ++ sectionLines "Questions" m.questions
    ++ sectionLines "Attendees" m.attendees
    ++ sectionLines "Deadlines" m.deadlines
    ++ sectionLines "Follow-ups" m.follow_ups
    ++ sectionLines "Risks" m.risks

/-- `MeetingInsight.to_markdown` (identical in both source files). -/
def to_markdown (m : MeetingInsight) : String := joinLines (mdLines m)

/-- The rendered text of one section of the markdown document. -/
def sectionText (title : String) (items : List InsightItem) : String :=
  joinLines (sectionLines title items)

/-- Python `str.strip()`: drop whitespace from both ends. -/
def stripStr (s : String) : String :=
  ⟨((s.data.dropWhile Char.isWhitespace).reverse.dropWhile Char.isWhitespace).reverse⟩

/-- Python `str.lower()`, character by character. -/
def pyLower (s : String) : String := ⟨s.data.map Char.toLower⟩

/-- The `InsightItem` synthesized by `_handle_manual_entry` for one entered
line (identical in both source files): placeholder quote and speaker, fixed
sub-tag `proposed`. -/
def mkManualItem (p : String) : InsightItem :=
  ⟨p, "Manually entered", "Manual Entry", SubCategory.proposed⟩

/-- Errors aborting a flow: end of the modelled input stream (Python
`EOFError` at `console.input()`), or an uncaught backend error. -/
inductive Err where
  | eof | backend
  deriving DecidableEq

/-- The inner `while True` loop of `_handle_manual_entry` for one category:
read lines until an empty line, collecting them in order; input exhaustion
aborts. -/
def read_block : List String → Except Err (List String × List String)
  | [] => .error .eof
  | s :: rest =>
    if s = "" then .ok ([], rest)
    else
      match read_block rest with
      | .error e => .error e
      | .ok (ls, rem) => .ok (s :: ls, rem)

/-- `_handle_manual_entry` (identical in both source files): for each of the
seven fields in declaration order, read a block of lines and synthesize one
placeholder item per line. -/
def handle_manual_entry (inputs : List String) : Except Err (MeetingInsight × List String) :=
  match read_block inputs with
  | .error e => .error e
  | .ok (b1, r1) =>
  match read_block r1 with
  | .error e => .error e
  | .ok (b2, r2) =>
  match read_block r2 with
  | .error e => .error e
  | .ok (b3, r3) =>
  match read_block r3 with
  | .error e => .error e
  | .ok (b4, r4) =>
  match read_block r4 with
  | .error e => .error e
  | .ok (b5, r5) =>
  match read_block r5 with
  | .error e => .error e
  | .ok (b6, r6) =>
  match read_block r6 with
  | .error e => .error e
  | .ok (b7, r7) =>
    .ok (⟨b1.map mkManualItem, b2.map mkManualItem, b3.map mkManualItem,
          b4.map mkManualItem, b5.map mkManualItem, b6.map mkManualItem,
          b7.map mkManualItem⟩, r7)

/-- Observable events of an analyzer run, in order: completion-backend
calls, prompts shown on the console, and `OutputManager.save_output`
calls (stage name and markdown content). -/
inductive Ev where
  | callAnalyze (transcript : String)
  | callImprove (feedback : String)
  | askApproval
  | askFeedback
  | askChoice
  | save (stage : String) (content : String)
  deriving DecidableEq

/-- The completion backend as seen by `meet-01.py`: `instructor` validates
the reply against the `MeetingInsight` schema, so a call either yields a
validated record or raises. -/
structure Backend1 where
  analyze : String → Except String MeetingInsight
  improve : MeetingInsight → String → String → Except String MeetingInsight

/-- `meet-01.py  TranscriptProcessor._handle_iteration`: call
`improve_insights`; on success save the iteration artifact and return the
new insight, on any error return the previous insight unchanged.
(`improve_insights` itself re-raises backend errors, so the `except` here
catches exactly a failed backend call.) -/
def m1_handle_iteration (b : Backend1) (insight : MeetingInsight)
    (feedback transcript : String) : MeetingInsight × List Ev :=
  match b.improve insight feedback transcript with
  | .ok newInsight =>
      (newInsight, [.callImprove feedback, .save "3_iteration" (to_markdown newInsight)])
  | .error _ => (insight, [.callImprove feedback])

/-- `meet-01.py  TranscriptProcessor._handle_empty_insights`: read a menu
choice; "1" reads feedback and iterates, "2" runs manual entry, anything
else accepts the empty insight. -/
def m1_handle_empty_insights (b : Backend1) (insight : MeetingInsight)
    (transcript : String) (inputs : List String) :
    Except Err (MeetingInsight × List String × List Ev) :=
  match inputs with
  | [] => .error .eof
  | choice :: rest =>
    if choice = "1" then
      match rest with
      | [] => .error .eof
      | fb :: rest2 =>
        let r := m1_handle_iteration b insight fb transcript
        .ok (r.1, rest2, [.askChoice, .askFeedback] ++ r.2)
    else if choice = "2" then
      match handle_manual_entry rest with
      | .error e => .error e
      | .ok (m, rem) => .ok (m, rem, [.askChoice])
    else .ok (insight, rest, [.askChoice])

/-- `meet-01.py  TranscriptProcessor._handle_human_review`: if every
sequence is empty, branch to the empty-insights menu; otherwise ask for
approval — `y` (case-insensitive) returns the insight, anything else reads
feedback and iterates once. -/
def m1_handle_human_review (b : Backend1) (insight : MeetingInsight)
    (transcript : String) (inputs : List String) :
    Except Err (MeetingInsight × List String × List Ev) :=
  if allEmpty insight then m1_handle_empty_insights b insight transcript inputs
  else
    match inputs with
    | [] => .error .eof
    | approval :: rest =>
      if pyLower approval = "y" then .ok (insight, rest, [.askApproval])
      else
        match rest with
        | [] => .error .eof
        | fb :: rest2 =>
          let r := m1_handle_iteration b insight fb transcript
          .ok (r.1, rest2, [.askApproval, .askFeedback] ++ r.2)

/-- `meet-01.py  TranscriptProcessor.process_transcript`: strip the
transcript and short-circuit with an empty result when blank; otherwise
analyze (a backend error propagates), save the analysis artifact, run the
human review unless `auto_mode`, and save the final artifact. -/
def m1_process_transcript (b : Backend1) (auto_mode : Bool)
    (transcript : String) (inputs : List String) :
    Except Err (MeetingInsight × List Ev) :=
  let t := stripStr transcript
  if t = "" then .ok (emptyInsight, [])
  else
    match b.analyze t with
    | .error _ => .error .backend
    | .ok insight =>
      let evs0 : List Ev := [.callAnalyze t, .save "1_analysis" (to_markdown insight)]
      if auto_mode then
        .ok (insight, evs0 ++ [.save "2_final_output" (to_markdown insight)])
      else
        match m1_handle_human_review b insight t inputs with
        | .error e => .error e
        | .ok (final, _, evs1) =>
          .ok (final, evs0 ++ evs1 ++ [.save "2_final_output" (to_markdown final)])

/-- One item of the raw JSON reply parsed by `meet-02.py`: the three string
fields plus an optional `subcategory` key (absent keys modelled as
`none`). -/
structure RawItem where
  point : String
  quote : String
  speaker : String
  subcategory : Option String
  deriving DecidableEq

/-- The raw JSON reply parsed by `meet-02.py  analyze_transcript`:
each of the seven category keys may be absent (`none`). -/
structure RawReply where
  tasks : Option (List RawItem) := none
  decisions : Option (List RawItem) := none
  questions : Option (List RawItem) := none
  attendees : Option (List RawItem) := none
  deadlines : Option (List RawItem) := none
  follow_ups : Option (List RawItem) := none
  risks : Option (List RawItem) := none
  deriving DecidableEq

/-- Membership of an item in any category of a raw reply. -/
def memRaw (it : RawItem) (r : RawReply) : Prop :=
  it ∈ r.tasks.getD [] ∨ it ∈ r.decisions.getD [] ∨ it ∈ r.questions.getD [] ∨
  it ∈ r.attendees.getD [] ∨ it ∈ r.deadlines.getD [] ∨ it ∈ r.follow_ups.getD [] ∨
  it ∈ r.risks.getD []

/-- `meet-02.py`'s `SubCategory` enum membership: the string-to-member
lookup pydantic performs when validating a `subcategory` value. -/
def parseSub2 : String → Option SubCategory
  | "proposed" => some .proposed
  | "confirmed" => some .confirmed
  | "blocked" => some .blocked
  | "completed" => some .completed
  | "approved" => some .approved
  | "rejected" => some .rejected
  | "deferred" => some .deferred
  | "asked" => some .asked
  | "answered" => some .answered
  | "unresolved" => some .unresolved
  | "named" => some .named
  | "roles" => some .roles
  | "teams" => some .teams
  | "immediate" => some .immediate
  | "short_term" => some .short_term
  | "medium_term" => some .medium_term
  | "meetings" => some .meetings
  | "reviews" => some .reviews
  | "dependencies" => some .dependencies
  | "technical" => some .technical
  | "timeline" => some .timeline
  | "stakeholder" => some .stakeholder
  | _ => none

/-- pydantic validation of a single item in `meet-02.py`: `subcategory`
must be present and a member of the variant-B enum. -/
def validateItem2 (it : RawItem) : Option InsightItem :=
  match it.subcategory with
  | none => none
  | some s => (parseSub2 s).map fun sc => ⟨it.point, it.quote, it.speaker, sc⟩

/-- pydantic validation of one category list in `meet-02.py`: every item
must validate, in order. -/
def validateItems2 : List RawItem → Option (List InsightItem)
  | [] => some []
  | it :: rest =>
    match validateItem2 it, validateItems2 rest with
    | some a, some as => some (a :: as)
    | _, _ => none

/-- `MeetingInsight.model_validate(result)` in `meet-02.py`: absent
category keys fall back to the `default_factory=list` default; every item
must validate. -/
def validate2 (r : RawReply) : Option MeetingInsight := do
  let tasks ← validateItems2 (r.tasks.getD [])
  let decisions ← validateItems2 (r.decisions.getD [])
  let questions ← validateItems2 (r.questions.getD [])
  let attendees ← validateItems2 (r.attendees.getD [])
  let deadlines ← validateItems2 (r.deadlines.getD [])
  let follow_ups ← validateItems2 (r.follow_ups.getD [])
  let risks ← validateItems2 (r.risks.getD [])
  pure ⟨tasks, decisions, questions, attendees, deadlines, follow_ups, risks⟩

/-- The default-tag repair of one category list in `meet-02.py
analyze_transcript`: items keep a present `subcategory`, absent ones get
the per-category default. -/
def repairItems (defaultTag : String) (l : List RawItem) : List RawItem :=
  l.map fun it => { it with subcategory := some (it.subcategory.getD defaultTag) }

/-- The repair loop of `meet-02.py  analyze_transcript`: absent categories
become empty lists, and each item missing `subcategory` receives that
category's default tag. -/
def repairReply (r : RawReply) : RawReply :=
  { tasks := some (repairItems "proposed" (r.tasks.getD []))
  , decisions := some (repairItems "approved" (r.decisions.getD []))
  , questions := some (repairItems "asked" (r.questions.getD []))
  , attendees := some (repairItems "named" (r.attendees.getD []))
  , deadlines := some (repairItems "immediate" (r.deadlines.getD []))
  , follow_ups := some (repairItems "meetings" (r.follow_ups.getD []))
  , risks := some (repairItems "technical" (r.risks.getD [])) }

/-- The completion backend as seen by `meet-02.py`: a call yields raw JSON
(modelled as an already-parsed `RawReply`; a network error or a
`json.loads` failure is the error case). -/
structure Backend2 where
  complete : String → Except String RawReply
  improve : MeetingInsight → String → String → Except String RawReply

/-- `meet-02.py  TranscriptProcessor.analyze_transcript`: call the backend,
repair the parsed reply, validate it; any failure along the way is caught
and an empty `MeetingInsight` is returned. -/
def m2_analyze_transcript (b : Backend2) (transcript : String) :
    MeetingInsight × List Ev :=
  match b.complete transcript with
  | .error _ => (emptyInsight, [.callAnalyze transcript])
  | .ok raw =>
    match validate2 (repairReply raw) with
    | none => (emptyInsight, [.callAnalyze transcript])
    | some m => (m, [.callAnalyze transcript])

/-- `meet-02.py  TranscriptProcessor.improve_insights`: call the backend
and validate the reply directly (no repair step); any failure re-raises. -/
def m2_improve_insights (b : Backend2) (previous : MeetingInsight)
    (feedback transcript : String) : Except String MeetingInsight :=
  match b.improve previous feedback transcript with
  | .error e => .error e
  | .ok raw =>
    match validate2 raw with
    | none => .error "validation error"
    | some m => .ok m

/-- `meet-02.py  TranscriptProcessor._handle_iteration`: same shape as
variant A — on any error from `improve_insights`, return the previous
insight unchanged. -/
def m2_handle_iteration (b : Backend2) (insight : MeetingInsight)
    (feedback transcript : String) : MeetingInsight × List Ev :=
  match m2_improve_insights b insight feedback transcript with
  | .ok newInsight =>
      (newInsight, [.callImprove feedback, .save "3_iteration" (to_markdown newInsight)])
  | .error _ => (insight, [.callImprove feedback])

/-- `meet-02.py  TranscriptProcessor.process_transcript`: read the
transcript (no strip, no emptiness check), analyze it and return the
result.  No review step runs and no `save_output` call is made. -/
def m2_process_transcript (b : Backend2) (transcript : String) :
    MeetingInsight × List Ev :=
  m2_analyze_transcript b transcript

/-- Per-category valid sub-tag sets of `meet-01.py`'s enum (the grouping
comments in the enum declaration). -/
def validTask1 : SubCategory → Bool
  | .assigned | .proposed | .blocked | .completed => true
  | _ => false

/-- Valid decision sub-tags in `meet-01.py`. -/
def validDecision1 : SubCategory → Bool
  | .confirmed | .rejected | .deferred => true
  | _ => false

/-- Per-category valid sub-tag sets of `meet-02.py`'s enum. -/
def validTask2 : SubCategory → Bool
  | .proposed | .confirmed | .blocked | .completed => true
  | _ => false

/-- Valid decision sub-tags in `meet-02.py`. -/
def validDecision2 : SubCategory → Bool
  | .approved | .rejected | .deferred => true
  | _ => false

/-- Valid question sub-tags in `meet-02.py`. -/
def validQuestion2 : SubCategory → Bool
  | .asked | .answered | .unresolved => true
  | _ => false

/-- Valid attendee sub-tags in `meet-02.py`. -/
def validAttendee2 : SubCategory → Bool
  | .named | .roles | .teams => true
  | _ => false

/-- Valid deadline sub-tags in `meet-02.py`. -/
def validDeadline2 : SubCategory → Bool
  | .immediate | .short_term | .medium_term => true
  | _ => false

/-- Valid follow-up sub-tags in `meet-02.py`. -/
def validFollowUp2 : SubCategory → Bool
  | .meetings | .reviews | .dependencies => true
  | _ => false

/-- Valid risk sub-tags in `meet-02.py`. -/
def validRisk2 : SubCategory → Bool
  | .technical | .timeline | .stakeholder => true
  | _ => false

/-- `research.py  ResearchResult`: three required string fields, no further
constraint declared on any of them. -/
structure ResearchResult where
  research_title : String
  research_main : String
  research_bullets : String
  deriving DecidableEq

/-- A raw agent reply before schema validation: each required field may be
absent. -/
structure RawResearch where
  research_title : Option String := none
  research_main : Option String := none
  research_bullets : Option String := none
  deriving DecidableEq

/-- pydantic validation of `ResearchResult`: all three fields must be
present; no emptiness or length constraint is declared. -/
def validateResearch (r : RawResearch) : Option ResearchResult :=
  match r.research_title, r.research_main, r.research_bullets with
  | some t, some m, some b => some ⟨t, m, b⟩
  | _, _, _ => none

/-- One `search_agent.run` call: the agent produces a raw reply which must
validate against the `ResearchResult` schema; backend errors and schema
failures abort the query. -/
def researchRun (agent : String → Except String RawResearch) (query : String) :
    Except String ResearchResult :=
  match agent query with
  | .error e => .error e
  | .ok raw =>
    match validateResearch raw with
    | none => .error "validation error"
    | some res => .ok res

/-- `filename = result.data.research_title.lower().replace(" ", "_")[:50] + ".md"`. -/
def slugify (title : String) : String :=
  ⟨((pyLower title).data.map fun c => if c = ' ' then '_' else c).take 50⟩ ++ ".md"

/-- Observable events of the research assistant's interactive loop. -/
inductive REvent where
  | promptQuery
  | printGoodbye
  | printInvalid
  | agentRun (query : String)
  | printResults
  | saveFile (name : String)
  | printError
  | eof
  deriving DecidableEq

/-- One iteration of the `research.py  main` loop body, for a prompted
`query` with `rest` the inputs still unread: `q` quits, a blank query
prints the invalid-query message and loops, otherwise the agent runs and
the save/continue questions are asked.  Returns the events of the
iteration and `some k` when the loop continues after consuming `k`
further inputs (`none` ends the loop; `REvent.eof` marks input exhaustion
at a `console.input()` call). -/
def researchIter (agent : String → Except String RawResearch)
    (query : String) (rest : List String) : List REvent × Option Nat :=
  if pyLower query = "q" then ([.printGoodbye], none)
  else if stripStr query = "" then ([.printInvalid], some 0)
  else
    match researchRun agent query with
    | .ok res =>
      match rest with
      | [] => ([.agentRun query, .printResults, .eof], none)
      | saveAns :: rest2 =>
        let saveEvs :=
          if pyLower saveAns = "y" then [REvent.saveFile (slugify res.research_title)] else []
        match rest2 with
        | [] => ([.agentRun query, .printResults] ++ saveEvs ++ [.eof], none)
        | contAns :: _ =>
          if pyLower contAns = "y" then ([.agentRun query, .printResults] ++ saveEvs, some 2)
          else ([.agentRun query, .printResults] ++ saveEvs ++ [.printGoodbye], none)
    | .error _ =>
      match rest with
      | [] => ([.agentRun query, .printError, .eof], none)
      | retry :: _ =>
        if pyLower retry = "y" then ([.agentRun query, .printError], some 1)
        else ([.agentRun query, .printError], none)

/-- `research.py  main`: the interactive loop, driven by the list of console
inputs.  Each iteration prompts for a query and runs `researchIter`;
`some k` continues the loop on the inputs left after the `k` the
iteration consumed. -/
def researchLoop (agent : String → Except String RawResearch) :
    List String → List REvent
  | [] => [.eof]
  | query :: rest =>
    .promptQuery ::
    ((researchIter agent query rest).1 ++
      match (researchIter agent query rest).2 with
      | none => []
      | some k => researchLoop agent (rest.drop k))
termination_by l => l.length
decreasing_by
  simp [List.length_drop]
  omega

/-- An item's point, quote and speaker appear verbatim (as character-list
substrings) inside the rendered text of one markdown section, and so does
the f-string rendering `SubCategory.MEMBER` of its subcategory (the
subcategory's value itself is not rendered — see the counterexample). -/
def itemInSection (it : InsightItem) (title : String) (items : List InsightItem) : Prop :=
  it.point.data <:+: (sectionText title items).data ∧
  it.quote.data <:+: (sectionText title items).data ∧
  it.speaker.data <:+: (sectionText title items).data ∧
  (subcatRepr it.subcategory).data <:+: (sectionText title items).data

/-- One section of `to_markdown`'s output is rendered correctly inside the
whole document: the section text (which starts with its heading) occurs in
the document, the heading occurs in the section text, an empty sequence
renders the placeholder line, and every item's fields appear verbatim
inside the section text. -/
def sectionRendered (m : MeetingInsight) (title : String) (items : List InsightItem) : Prop :=
  (sectionText title items).data <:+: (to_markdown m).data ∧
  ("## " ++ title).data <:+: (sectionText title items).data ∧
  (items = [] → ("No items found.").data <:+: (sectionText title items).data) ∧
  ∀ it ∈ items, itemInSection it title items

/-- A backend stub whose calls all fail. -/
def failBackend1 : Backend1 :=
  ⟨fun _ => .error "boom", fun _ _ _ => .error "boom"⟩

/-- A variant-B backend stub whose calls all fail. -/
def failBackend2 : Backend2 :=
  ⟨fun _ => .error "boom", fun _ _ _ => .error "boom"⟩

/-- A concrete item used by witnesses. -/
def sampleItem : InsightItem :=
  ⟨"Finish API", "I will finish the API by Friday.", "Alice", .assigned⟩

/-- A concrete non-empty insight used by witnesses. -/
def sampleInsight : MeetingInsight := ⟨[sampleItem], [], [], [], [], [], []⟩

/-- A concrete refined insight used by witnesses. -/
def refinedInsight : MeetingInsight :=
  ⟨[], [⟨"ship v2", "we will ship v2", "Bob", .approved⟩], [], [], [], [], []⟩

/-- A variant-A backend stub: analysis yields `sampleInsight`, refinement
yields `refinedInsight`. -/
def reviewBackend1 : Backend1 :=
  ⟨fun _ => .ok sampleInsight, fun _ _ _ => .ok refinedInsight⟩

/-- A variant-A backend stub whose calls all succeed with `sampleInsight`. -/
def okBackend1 : Backend1 :=
  ⟨fun _ => .ok sampleInsight, fun _ _ _ => .ok sampleInsight⟩

/-- A raw variant-B reply with a well-formed task item: used to exhibit that
variant B calls the backend even on an empty transcript. -/
def taskReply : RawReply :=
  { tasks := some [⟨"p", "q", "s", some "proposed"⟩] }

/-- A variant-B backend stub answering every call with `taskReply`. -/
def nonEmptyReplyBackend : Backend2 :=
  ⟨fun _ => .ok taskReply, fun _ _ _ => .error "x"⟩

/-- A raw variant-B reply whose items all lack the `subcategory` key and
whose middle five category keys are absent. -/
def missingTagReply : RawReply :=
  { tasks := some [⟨"p", "q", "s", none⟩]
  , risks := some [⟨"r", "q2", "s2", none⟩] }

/-- A variant-B backend stub answering every call with `missingTagReply`. -/
def missingTagBackend : Backend2 :=
  ⟨fun _ => .ok missingTagReply, fun _ _ _ => .error "x"⟩

/-- The `MeetingInsight` that validating the repaired `missingTagReply`
produces. -/
def missingTagValidated : MeetingInsight :=
  ⟨[⟨"p", "q", "s", .proposed⟩], [], [], [], [], [], [⟨"r", "q2", "s2", .technical⟩]⟩

/-- The insight produced by manual entry of a single decisions line. -/
def manualDecisionInsight : MeetingInsight :=
  ⟨[], [mkManualItem "ship it"], [], [], [], [], []⟩

/-- The event trace of the concrete reject-then-refine run used to show the
review state is not re-entered after refinement. -/
def rejectRunEvents : List Ev :=
  [.callAnalyze "hi", .save "1_analysis" (to_markdown sampleInsight),
   .askApproval, .askFeedback, .callImprove "add bob",
   .save "3_iteration" (to_markdown refinedInsight),
   .save "2_final_output" (to_markdown refinedInsight)]

/-- A research-agent stub that always errors (never consulted by the
blank-query path). -/
def stubAgent : String → Except String RawResearch := fun _ => .error "unused"

/-- A research-agent stub replying with an empty title and non-empty body
fields. -/
def emptyTitleAgent : String → Except String RawResearch :=
  fun _ => .ok ⟨some "", some "body", some "bullets"⟩

/-- A research-agent stub replying with all three fields present. -/
def okAgent : String → Except String RawResearch :=
  fun _ => .ok ⟨some "T", some "M", some "B"⟩

/-! ## Helper lemmas -/

theorem stripStr_of_whitespace (t : String) (h : ∀ c ∈ t.data, c.isWhitespace) :
    stripStr t = "" := by
  unfold stripStr
  have h1 : t.data.dropWhile Char.isWhitespace = [] := by
    rw [List.dropWhile_eq_nil_iff]
    exact h
  simp [h1]

theorem read_block_append (ls rest : List String) (h : ∀ l ∈ ls, l ≠ "") :
    read_block (ls ++ "" :: rest) = .ok (ls, rest) := by
  induction ls with
  | nil => simp [read_block]
  | cons a as ih =>
    have ha : a ≠ "" := h a (by simp)
    have has : ∀ l ∈ as, l ≠ "" := fun l hl => h l (by simp [hl])
    simp [read_block, ha, ih has]

/-! ## C2: refinement is non-destructive on backend error -/

/-- C2: for every prior `MeetingInsight`, feedback string and transcript,
if the refinement backend call fails, `_handle_iteration` returns the
prior insight with every field value unchanged — in both analyzer
variants. -/
theorem refine_error_returns_previous :
    (∀ (b : Backend1) (i : MeetingInsight) (fb t e : String),
      b.improve i fb t = .error e → (m1_handle_iteration b i fb t).1 = i) ∧
    (∀ (b : Backend2) (i : MeetingInsight) (fb t e : String),
      m2_improve_insights b i fb t = .error e → (m2_handle_iteration b i fb t).1 = i) := by
  constructor
  · intro b i fb t e h
    simp [m1_handle_iteration, h]
  · intro b i fb t e h
    simp [m2_handle_iteration, h]

/-- Witness for C2 at a concrete failing backend and insight. -/
theorem refine_error_returns_previous_witness :
    (m1_handle_iteration failBackend1 sampleInsight "f" "t").1 = sampleInsight ∧
    (m2_handle_iteration failBackend2 sampleInsight "f" "t").1 = sampleInsight :=
  ⟨refine_error_returns_previous.1 failBackend1 sampleInsight "f" "t" "boom" rfl,
   refine_error_returns_previous.2 failBackend2 sampleInsight "f" "t" "boom" rfl⟩

/-! ## C6: manual entry synthesizes one placeholder item per line -/

/-- C6: for every category, a block of N non-empty lines followed by a
blank line yields exactly the N corresponding `InsightItem`s, each with
the entered line as `point`, quote `"Manually entered"` and speaker
`"Manual Entry"`. -/
theorem manual_entry_items (b1 b2 b3 b4 b5 b6 b7 rest : List String)
    (h : ∀ l ∈ b1 ++ b2 ++ b3 ++ b4 ++ b5 ++ b6 ++ b7, l ≠ "") :
    handle_manual_entry
        (b1 ++ "" :: (b2 ++ "" :: (b3 ++ "" :: (b4 ++ "" :: (b5 ++ "" :: (b6 ++ "" :: (b7 ++ "" :: rest))))))) =
      .ok (⟨b1.map mkManualItem, b2.map mkManualItem, b3.map mkManualItem,
            b4.map mkManualItem, b5.map mkManualItem, b6.map mkManualItem,
            b7.map mkManualItem⟩, rest) ∧
    ∀ p : String, (mkManualItem p).point = p ∧
      (mkManualItem p).quote = "Manually entered" ∧
      (mkManualItem p).speaker = "Manual Entry" := by
  refine ⟨?_, fun p => ⟨rfl, rfl, rfl⟩⟩
  have h1 : ∀ l ∈ b1, l ≠ "" := fun l hl => h l (by simp [hl])
  have h2 : ∀ l ∈ b2, l ≠ "" := fun l hl => h l (by simp [hl])
  have h3 : ∀ l ∈ b3, l ≠ "" := fun l hl => h l (by simp [hl])
  have h4 : ∀ l ∈ b4, l ≠ "" := fun l hl => h l (by simp [hl])
  have h5 : ∀ l ∈ b5, l ≠ "" := fun l hl => h l (by simp [hl])
  have h6 : ∀ l ∈ b6, l ≠ "" := fun l hl => h l (by simp [hl])
  have h7 : ∀ l ∈ b7, l ≠ "" := fun l hl => h l (by simp [hl])
  simp [handle_manual_entry, read_block_append _ _ h1, read_block_append _ _ h2,
        read_block_append _ _ h3, read_block_append _ _ h4, read_block_append _ _ h5,
        read_block_append _ _ h6, read_block_append _ _ h7]

/-- Witness for C6: one task line, the other six categories skipped. -/
theorem manual_entry_items_witness :
    handle_manual_entry ["write tests", "", "", "", "", "", "", ""] =
      .ok (⟨[mkManualItem "write tests"], [], [], [], [], [], []⟩, []) :=
  (manual_entry_items ["write tests"] [] [] [] [] [] [] []
    (by intro l hl; simp at hl; simp [hl])).1

/-! ## C10: blank research queries issue no agent run -/

/-- C10: a query that strips to the empty string (and is not the quit
command) makes the research loop print the invalid-query message and
re-prompt, with no agent run and hence no search call for that query. -/
theorem blank_query_no_agent_run (agent : String → Except String RawResearch)
    (query : String) (rest : List String)
    (hblank : stripStr query = "") (hq : pyLower query ≠ "q") :
    researchLoop agent (query :: rest) =
      .promptQuery :: .printInvalid :: researchLoop agent rest := by
  have hiter : researchIter agent query rest = ([.printInvalid], some 0) := by
    unfold researchIter
    simp [hblank, hq]
  rw [researchLoop, hiter]
  simp

/-- Witness for C10 at the whitespace query. -/
theorem blank_query_no_agent_run_witness :
    researchLoop stubAgent [" "] = [.promptQuery, .printInvalid, .eof] := by
  rw [blank_query_no_agent_run stubAgent " " [] rfl (by decide)]
  rw [researchLoop]

/-! ## C9: the research schema does not enforce a non-empty title -/

/-- C9 counterexample: a successful research run whose validated result has
an empty `research_title` — the schema only requires the field to be
present, not non-empty. -/
theorem empty_title_validates_cex :
    researchRun emptyTitleAgent "quantum computing" = .ok ⟨"", "body", "bullets"⟩ := rfl

/-- C9 amended: the schema enforces presence of the three fields — every
successful run's result carries exactly the field values the agent reply
supplied, which must all be present; no emptiness constraint exists. -/
theorem title_presence_enforced (agent : String → Except String RawResearch)
    (q : String) (res : ResearchResult) (h : researchRun agent q = .ok res) :
    ∃ raw, agent q = .ok raw ∧ raw.research_title = some res.research_title ∧
      raw.research_main = some res.research_main ∧
      raw.research_bullets = some res.research_bullets := by
  unfold researchRun at h
  split at h
  · cases h
  next raw hag =>
    split at h
    · cases h
    next r hv =>
      injection h with hr
      subst hr
      refine ⟨raw, hag, ?_⟩
      rcases raw with ⟨ot, om, ob⟩
      cases ot <;> cases om <;> cases ob <;>
        simp [validateResearch] at hv ⊢ <;> simp [← hv]

/-- Witness for C9's amended statement at a concrete agent. -/
theorem title_presence_enforced_witness :
    ∃ raw, okAgent "q1" = .ok raw ∧ raw.research_title = some "T" ∧
      raw.research_main = some "M" ∧ raw.research_bullets = some "B" :=
  title_presence_enforced okAgent "q1" ⟨"T", "M", "B"⟩ rfl

/-! ## C1: empty-transcript short circuit -/

/-- C1 counterexample: variant B (`meet-02.py`) performs no emptiness check
— processing the empty transcript issues a completion-backend call (and,
with this backend reply, returns a non-empty insight). -/
theorem m2_empty_transcript_calls_backend_cex :
    m2_process_transcript nonEmptyReplyBackend "" =
      (⟨[⟨"p", "q", "s", SubCategory.proposed⟩], [], [], [], [], [], []⟩,
       [Ev.callAnalyze ""]) := rfl

/-- C1 amended: in variant A (`meet-01.py`), a transcript that is empty or
all whitespace short-circuits: the flow returns the all-empty
`MeetingInsight` and its event trace is empty — no backend call, no save. -/
theorem m1_empty_transcript_short_circuits (b : Backend1) (auto : Bool)
    (t : String) (inputs : List String) (h : ∀ c ∈ t.data, c.isWhitespace) :
    m1_process_transcript b auto t inputs = .ok (emptyInsight, []) := by
  have hs : stripStr t = "" := stripStr_of_whitespace t h
  unfold m1_process_transcript
  rw [hs]
  rfl

/-- Witness for C1's amended statement at the one-space transcript. -/
theorem m1_empty_transcript_short_circuits_witness :
    m1_process_transcript failBackend1 false " " [] = .ok (emptyInsight, []) :=
  m1_empty_transcript_short_circuits failBackend1 false " " [] (by decide)

/-! ## C3: persistence of the insight current at review exit -/

/-- C3 counterexample: a complete run of variant B's `process_transcript`
whose event trace contains no `save_output` call at all — the returned
insight is never persisted, and the review loop is never entered. -/
theorem m2_no_artifact_persisted_cex :
    m2_process_transcript nonEmptyReplyBackend "hello" =
      (⟨[⟨"p", "q", "s", SubCategory.proposed⟩], [], [], [], [], [], []⟩,
       [Ev.callAnalyze "hello"]) := rfl

/-- C3 amended: in variant A, every successful run on a non-blank
transcript ends by persisting the `MeetingInsight` current at review exit
as the `2_final_output` stage artifact — it is the last event of the
trace, whichever terminal state the review loop ended in. -/
theorem m1_final_insight_persisted (b : Backend1) (transcript : String)
    (inputs : List String) (final : MeetingInsight) (evs : List Ev)
    (hne : stripStr transcript ≠ "")
    (h : m1_process_transcript b false transcript inputs = .ok (final, evs)) :
    ∃ pre, evs = pre ++ [Ev.save "2_final_output" (to_markdown final)] := by
  unfold m1_process_transcript at h
  rw [if_neg hne] at h
  cases hb : b.analyze (stripStr transcript) with
  | error e => rw [hb] at h; cases h
  | ok insight =>
    rw [hb] at h
    simp only [Bool.false_eq_true, if_false] at h
    cases hr : m1_handle_human_review b insight (stripStr transcript) inputs with
    | error e => rw [hr] at h; cases h
    | ok trip =>
      obtain ⟨f2, rem, evs1⟩ := trip
      rw [hr] at h
      injection h with h2
      injection h2 with hf he
      subst hf
      exact ⟨_, by rw [← he]⟩

/-- Witness for C3's amended statement: a concrete approved run. -/
theorem m1_final_insight_persisted_witness :
    ∃ pre,
      [Ev.callAnalyze "hi", Ev.save "1_analysis" (to_markdown sampleInsight),
       Ev.askApproval, Ev.save "2_final_output" (to_markdown sampleInsight)] =
        pre ++ [Ev.save "2_final_output" (to_markdown sampleInsight)] :=
  m1_final_insight_persisted okBackend1 "hi" ["y"] sampleInsight _ (by decide) rfl

/-! ## C4: the review state is not re-entered after refinement -/

/-- C4 counterexample: a concrete run in which the human rejects and gives
feedback; the refiner replaces the insight, yet the whole event trace
contains exactly one approval prompt — the flow never asks the human to
approve the refined result, it persists it and terminates. -/
theorem no_second_approval_cex :
    m1_process_transcript reviewBackend1 false "hi" ["n", "add bob"] =
      .ok (refinedInsight, rejectRunEvents) ∧
    rejectRunEvents.count Ev.askApproval = 1 := ⟨rfl, rfl⟩

/-- C4 amended: when the human rejects a non-empty insight and supplies
feedback, the review handler returns the refiner's result directly — the
trace shows one approval prompt, one feedback prompt, then only the
iteration's events, among which no further approval prompt occurs. -/
theorem reject_feedback_single_review (b : Backend1) (i : MeetingInsight)
    (t ap fb : String) (rest : List String)
    (hne : allEmpty i = false) (hap : pyLower ap ≠ "y") :
    m1_handle_human_review b i t (ap :: fb :: rest) =
      .ok ((m1_handle_iteration b i fb t).1, rest,
           .askApproval :: .askFeedback :: (m1_handle_iteration b i fb t).2) ∧
    Ev.askApproval ∉ (m1_handle_iteration b i fb t).2 := by
  constructor
  · simp [m1_handle_human_review, hne, hap]
  · unfold m1_handle_iteration
    cases b.improve i fb t <;> simp

/-- Witness for C4's amended statement at a concrete rejected run. -/
theorem reject_feedback_single_review_witness :
    m1_handle_human_review reviewBackend1 sampleInsight "t" ["n", "fb"] =
      .ok ((m1_handle_iteration reviewBackend1 sampleInsight "fb" "t").1, [],
           .askApproval :: .askFeedback ::
             (m1_handle_iteration reviewBackend1 sampleInsight "fb" "t").2) ∧
    Ev.askApproval ∉ (m1_handle_iteration reviewBackend1 sampleInsight "fb" "t").2 :=
  reject_feedback_single_review reviewBackend1 sampleInsight "t" "n" "fb" []
    rfl (by decide)

/-! ## C7 and C8: default-tag repair of malformed replies -/

theorem validateItems2_repair_of_missing (d : String) (sc : SubCategory)
    (hd : parseSub2 d = some sc) (l : List RawItem)
    (h : ∀ it ∈ l, it.subcategory = none) :
    validateItems2 (repairItems d l) =
      some (l.map fun it => ⟨it.point, it.quote, it.speaker, sc⟩) := by
  induction l with
  | nil => rfl
  | cons a as ih =>
    have ha : a.subcategory = none := h a (by simp)
    have has : ∀ it ∈ as, it.subcategory = none := fun it hit => h it (by simp [hit])
    simp [repairItems] at ih ⊢
    simp [validateItems2, validateItem2, ha, hd, ih has]

/-- C7: on parse/validation failure of the backend reply, variant A raises
(the stage aborts with a backend error), while variant B substitutes the
per-category default sub-tag for every item missing `subcategory` and
empty sequences for missing categories — such a reply is not fatal and
yields the repaired, validated insight. -/
theorem parse_failure_handling :
    (∀ (b : Backend1) (auto : Bool) (t : String) (inputs : List String) (e : String),
      stripStr t ≠ "" → b.analyze (stripStr t) = .error e →
      m1_process_transcript b auto t inputs = .error .backend) ∧
    (∀ (b : Backend2) (t : String) (raw : RawReply),
      b.complete t = .ok raw → (∀ it, memRaw it raw → it.subcategory = none) →
      m2_analyze_transcript b t =
        (⟨(raw.tasks.getD []).map (fun it => ⟨it.point, it.quote, it.speaker, .proposed⟩),
          (raw.decisions.getD []).map (fun it => ⟨it.point, it.quote, it.speaker, .approved⟩),
          (raw.questions.getD []).map (fun it => ⟨it.point, it.quote, it.speaker, .asked⟩),
          (raw.attendees.getD []).map (fun it => ⟨it.point, it.quote, it.speaker, .named⟩),
          (raw.deadlines.getD []).map (fun it => ⟨it.point, it.quote, it.speaker, .immediate⟩),
          (raw.follow_ups.getD []).map (fun it => ⟨it.point, it.quote, it.speaker, .meetings⟩),
          (raw.risks.getD []).map (fun it => ⟨it.point, it.quote, it.speaker, .technical⟩)⟩,
         [.callAnalyze t])) := by
  constructor
  · intro b auto t inputs e hne hb
    unfold m1_process_transcript
    rw [if_neg hne, hb]
  · intro b t raw hc hmiss
    have h1 := validateItems2_repair_of_missing "proposed" .proposed rfl (raw.tasks.getD [])
      (fun it hit => hmiss it (Or.inl hit))
    have h2 := validateItems2_repair_of_missing "approved" .approved rfl (raw.decisions.getD [])
      (fun it hit => hmiss it (Or.inr (Or.inl hit)))
    have h3 := validateItems2_repair_of_missing "asked" .asked rfl (raw.questions.getD [])
      (fun it hit => hmiss it (Or.inr (Or.inr (Or.inl hit))))
    have h4 := validateItems2_repair_of_missing "named" .named rfl (raw.attendees.getD [])
      (fun it hit => hmiss it (Or.inr (Or.inr (Or.inr (Or.inl hit)))))
    have h5 := validateItems2_repair_of_missing "immediate" .immediate rfl (raw.deadlines.getD [])
      (fun it hit => hmiss it (Or.inr (Or.inr (Or.inr (Or.inr (Or.inl hit))))))
    have h6 := validateItems2_repair_of_missing "meetings" .meetings rfl (raw.follow_ups.getD [])
      (fun it hit => hmiss it (Or.inr (Or.inr (Or.inr (Or.inr (Or.inr (Or.inl hit)))))))
    have h7 := validateItems2_repair_of_missing "technical" .technical rfl (raw.risks.getD [])
      (fun it hit => hmiss it (Or.inr (Or.inr (Or.inr (Or.inr (Or.inr (Or.inr hit)))))))
    unfold m2_analyze_transcript
    rw [hc]
    simp [validate2, repairReply, h1, h2, h3, h4, h5, h6, h7]

/-- Witness for C7: variant A at a failing backend, variant B at a reply
whose items all lack the subcategory key. -/
theorem parse_failure_handling_witness :
    m1_process_transcript failBackend1 false "hi" [] = .error .backend ∧
    m2_analyze_transcript missingTagBackend "hi" =
      (⟨[⟨"p", "q", "s", .proposed⟩], [], [], [], [], [],
        [⟨"r", "q2", "s2", .technical⟩]⟩, [.callAnalyze "hi"]) := by
  constructor
  · exact parse_failure_handling.1 failBackend1 false "hi" [] "boom" (by decide) rfl
  · have h := parse_failure_handling.2 missingTagBackend "hi" missingTagReply rfl
      (by intro it hm
          simp [memRaw, missingTagReply] at hm
          rcases hm with h1 | h1 <;> simp [h1])
    simpa [missingTagReply] using h

/-- C8 counterexample: manual entry synthesizes every item with the fixed
sub-tag `proposed`, so an item entered for the decisions sequence carries
a sub-tag outside the decision sub-tag set of either variant — the
invariant is not preserved by manual entry. -/
theorem manual_entry_invalid_subtag_cex :
    handle_manual_entry ["", "ship it", "", "", "", "", "", ""] =
      .ok (manualDecisionInsight, []) ∧
    mkManualItem "ship it" ∈ manualDecisionInsight.decisions ∧
    validDecision1 (mkManualItem "ship it").subcategory = false ∧
    validDecision2 (mkManualItem "ship it").subcategory = false :=
  ⟨rfl, by simp [manualDecisionInsight], rfl, rfl⟩

/-- C8 amended: the extraction default-tag repair does preserve the
per-category sub-tag invariant — for a reply whose items all lack
`subcategory`, every item of the validated result carries a sub-tag valid
for its containing sequence (variant B's sets); manual entry does not. -/
theorem default_tag_repair_valid (raw : RawReply) (m : MeetingInsight)
    (hmiss : ∀ it, memRaw it raw → it.subcategory = none)
    (hv : validate2 (repairReply raw) = some m) :
    (∀ it ∈ m.tasks, validTask2 it.subcategory = true) ∧
    (∀ it ∈ m.decisions, validDecision2 it.subcategory = true) ∧
    (∀ it ∈ m.questions, validQuestion2 it.subcategory = true) ∧
    (∀ it ∈ m.attendees, validAttendee2 it.subcategory = true) ∧
    (∀ it ∈ m.deadlines, validDeadline2 it.subcategory = true) ∧
    (∀ it ∈ m.follow_ups, validFollowUp2 it.subcategory = true) ∧
    (∀ it ∈ m.risks, validRisk2 it.subcategory = true) := by
  have h1 := validateItems2_repair_of_missing "proposed" .proposed rfl (raw.tasks.getD [])
    (fun it hit => hmiss it (Or.inl hit))
  have h2 := validateItems2_repair_of_missing "approved" .approved rfl (raw.decisions.getD [])
    (fun it hit => hmiss it (Or.inr (Or.inl hit)))
  have h3 := validateItems2_repair_of_missing "asked" .asked rfl (raw.questions.getD [])
    (fun it hit => hmiss it (Or.inr (Or.inr (Or.inl hit))))
  have h4 := validateItems2_repair_of_missing "named" .named rfl (raw.attendees.getD [])
    (fun it hit => hmiss it (Or.inr (Or.inr (Or.inr (Or.inl hit)))))
  have h5 := validateItems2_repair_of_missing "immediate" .immediate rfl (raw.deadlines.getD [])
    (fun it hit => hmiss it (Or.inr (Or.inr (Or.inr (Or.inr (Or.inl hit))))))
  have h6 := validateItems2_repair_of_missing "meetings" .meetings rfl (raw.follow_ups.getD [])
    (fun it hit => hmiss it (Or.inr (Or.inr (Or.inr (Or.inr (Or.inr (Or.inl hit)))))))
  have h7 := validateItems2_repair_of_missing "technical" .technical rfl (raw.risks.getD [])
    (fun it hit => hmiss it (Or.inr (Or.inr (Or.inr (Or.inr (Or.inr (Or.inr hit)))))))
  rw [validate2] at hv
  simp [repairReply, h1, h2, h3, h4, h5, h6, h7] at hv
  rw [← hv]
  refine ⟨?_, ?_, ?_, ?_, ?_, ?_, ?_⟩ <;>
    (intro it hit; simp at hit; obtain ⟨a, _, ha⟩ := hit; simp [← ha]) <;> rfl

/-- Witness for C8's amended statement at the concrete missing-tag reply. -/
theorem default_tag_repair_valid_witness :
    (∀ it ∈ missingTagValidated.tasks, validTask2 it.subcategory = true) ∧
    (∀ it ∈ missingTagValidated.decisions, validDecision2 it.subcategory = true) ∧
    (∀ it ∈ missingTagValidated.questions, validQuestion2 it.subcategory = true) ∧
    (∀ it ∈ missingTagValidated.attendees, validAttendee2 it.subcategory = true) ∧
    (∀ it ∈ missingTagValidated.deadlines, validDeadline2 it.subcategory = true) ∧
    (∀ it ∈ missingTagValidated.follow_ups, validFollowUp2 it.subcategory = true) ∧
    (∀ it ∈ missingTagValidated.risks, validRisk2 it.subcategory = true) :=
  default_tag_repair_valid missingTagReply missingTagValidated
    (by intro it hm
        simp [memRaw, missingTagReply] at hm
        rcases hm with h1 | h1 <;> simp [h1])
    (by rfl)

/-! ## C5: markdown rendering contains every item verbatim -/

theorem joinLines_append_data (a b : List String) (ha : a ≠ []) (hb : b ≠ []) :
    (joinLines (a ++ b)).data =
      (joinLines a).data ++ "\n".data ++ (joinLines b).data := by
  induction a with
  | nil => exact absurd rfl ha
  | cons x xs ih =>
    cases xs with
    | nil =>
      cases b with
      | nil => exact absurd rfl hb
      | cons y ys => simp [joinLines, String.data_append]
    | cons x2 xs2 =>
      have h2 := ih (by simp)
      simp [joinLines, String.data_append] at h2 ⊢
      simp [h2]

theorem mem_joinLines_part (s : String) (ls : List String) (h : s ∈ ls) :
    s.data <:+: (joinLines ls).data := by
  induction ls with
  | nil => simp at h
  | cons x xs ih =>
    rcases List.mem_cons.mp h with h1 | h2
    · subst h1
      cases xs with
      | nil => exact ⟨[], [], by simp [joinLines]⟩
      | cons y ys =>
        exact ⟨[], "\n".data ++ (joinLines (y :: ys)).data,
          by simp [joinLines, String.data_append]⟩
    · cases xs with
      | nil => simp at h2
      | cons y ys =>
        refine (ih h2).trans ⟨x.data ++ "\n".data, [], ?_⟩
        simp [joinLines, String.data_append]

theorem sectionLines_ne_nil (title : String) (items : List InsightItem) :
    sectionLines title items ≠ [] := by
  simp [sectionLines]

theorem sectionText_part (A B : List String) (title : String)
    (items : List InsightItem) (hA : A ≠ []) :
    (sectionText title items).data <:+:
      (joinLines (A ++ (sectionLines title items ++ B))).data := by
  cases B with
  | nil =>
    rw [List.append_nil, joinLines_append_data A _ hA (sectionLines_ne_nil _ _)]
    exact ⟨(joinLines A).data ++ "\n".data, [], by simp [sectionText]⟩
  | cons y ys =>
    rw [joinLines_append_data A _ hA
          (fun hh => sectionLines_ne_nil title items (List.append_eq_nil.mp hh).1),
        joinLines_append_data _ _ (sectionLines_ne_nil _ _) (by simp)]
    exact ⟨(joinLines A).data ++ "\n".data, "\n".data ++ (joinLines (y :: ys)).data,
      by simp [sectionText]⟩

theorem itemLines_mem_sectionLines (it : InsightItem) (title : String)
    (items : List InsightItem) (h : it ∈ items) (l : String) (hl : l ∈ itemLines it) :
    l ∈ sectionLines title items := by
  have hne : items ≠ [] := by rintro rfl; simp at h
  unfold sectionLines
  rw [if_neg hne]
  exact List.mem_append_left _ (List.mem_cons_of_mem _ (List.mem_flatMap.mpr ⟨it, h, hl⟩))

theorem sectionText_item (title : String) (items : List InsightItem)
    (it : InsightItem) (h : it ∈ items) : itemInSection it title items := by
  refine ⟨?_, ?_, ?_, ?_⟩
  · refine List.IsInfix.trans ⟨("- **").data, ("**").data, by simp [String.data_append]⟩
      (mem_joinLines_part _ _ (itemLines_mem_sectionLines it title items h
        ("- **" ++ it.point ++ "**") (by simp [itemLines])))
  · refine List.IsInfix.trans ⟨("  - Quote: \"").data, ("\"").data, by simp [String.data_append]⟩
      (mem_joinLines_part _ _ (itemLines_mem_sectionLines it title items h
        ("  - Quote: \"" ++ it.quote ++ "\"") (by simp [itemLines])))
  · refine List.IsInfix.trans ⟨("  - Speaker: ").data, [], by simp [String.data_append]⟩
      (mem_joinLines_part _ _ (itemLines_mem_sectionLines it title items h
        ("  - Speaker: " ++ it.speaker) (by simp [itemLines])))
  · refine List.IsInfix.trans ⟨("  - Category: ").data, ("\n").data, by simp [String.data_append]⟩
      (mem_joinLines_part _ _ (itemLines_mem_sectionLines it title items h
        ("  - Category: " ++ subcatRepr it.subcategory ++ "\n") (by simp [itemLines])))

theorem sectionRendered_of_decomp (m : MeetingInsight) (title : String)
    (items : List InsightItem) (A B : List String) (hA : A ≠ [])
    (hdec : mdLines m = A ++ (sectionLines title items ++ B)) :
    sectionRendered m title items := by
  refine ⟨?_, ?_, ?_, fun it hit => sectionText_item title items it hit⟩
  · show (sectionText title items).data <:+: (joinLines (mdLines m)).data
    rw [hdec]
    exact sectionText_part A B title items hA
  · refine mem_joinLines_part _ _ ?_
    unfold sectionLines
    exact List.mem_append_left _ (List.mem_cons_self _ _)
  · intro hempty
    subst hempty
    refine List.IsInfix.trans ⟨[], ("\n").data, by decide⟩
      (mem_joinLines_part "No items found.\n" _ ?_)
    unfold sectionLines
    simp

set_option maxRecDepth 8000 in
/-- C5 counterexample: the subcategory's value is not rendered verbatim
into the markdown — for a concrete insight holding one task item with
subcategory `assigned`, the value string `"assigned"` is not a substring
of the rendered document (the f-string renders
`SubCategory.ASSIGNED`). -/
theorem subcategory_value_not_rendered_cex :
    ¬ (subcatStr SubCategory.assigned).data <:+: (to_markdown sampleInsight).data := by
  decide

/-- C5 amended: `to_markdown` renders every one of the seven sections so
that the section text occurs in the document under its heading, each
item's point, quote and speaker appear verbatim inside their section's
text together with the f-string rendering `SubCategory.MEMBER` of its
subcategory (not the subcategory's value), and an empty sequence renders
the `No items found.` placeholder line. -/
theorem to_markdown_contains_items (m : MeetingInsight) :
    sectionRendered m "Tasks" m.tasks ∧
    sectionRendered m "Decisions" m.decisions ∧
    sectionRendered m "Questions" m.questions ∧
    sectionRendered m "Attendees" m.attendees ∧
    sectionRendered m "Deadlines" m.deadlines ∧
    sectionRendered m "Follow-ups" m.follow_ups ∧
    sectionRendered m "Risks" m.risks := by
  refine ⟨?_, ?_, ?_, ?_, ?_, ?_, ?_⟩
  · exact sectionRendered_of_decomp m _ _
      ["# Meeting Analysis Results\n"]
      (sectionLines "Decisions" m.decisions ++ (sectionLines "Questions" m.questions ++
        (sectionLines "Attendees" m.attendees ++ (sectionLines "Deadlines" m.deadlines ++
        (sectionLines "Follow-ups" m.follow_ups ++ sectionLines "Risks" m.risks)))))
      (by simp) (by simp [mdLines, List.append_assoc])
  · exact sectionRendered_of_decomp m _ _
      (["# Meeting Analysis Results\n"] ++ sectionLines "Tasks" m.tasks)
      (sectionLines "Questions" m.questions ++ (sectionLines "Attendees" m.attendees ++
        (sectionLines "Deadlines" m.deadlines ++ (sectionLines "Follow-ups" m.follow_ups ++
        sectionLines "Risks" m.risks))))
      (by simp) (by simp [mdLines, List.append_assoc])
  · exact sectionRendered_of_decomp m _ _
      (["# Meeting Analysis Results\n"] ++ (sectionLines "Tasks" m.tasks ++
        sectionLines "Decisions" m.decisions))
      (sectionLines "Attendees" m.attendees ++ (sectionLines "Deadlines" m.deadlines ++
        (sectionLines "Follow-ups" m.follow_ups ++ sectionLines "Risks" m.risks)))
      (by simp) (by simp [mdLines, List.append_assoc])
  · exact sectionRendered_of_decomp m _ _
      (["# Meeting Analysis Results\n"] ++ (sectionLines "Tasks" m.tasks ++
        (sectionLines "Decisions" m.decisions ++ sectionLines "Questions" m.questions)))
      (sectionLines "Deadlines" m.deadlines ++ (sectionLines "Follow-ups" m.follow_ups ++
        sectionLines "Risks" m.risks))
      (by simp) (by simp [mdLines, List.append_assoc])
  · exact sectionRendered_of_decomp m _ _
      (["# Meeting Analysis Results\n"] ++ (sectionLines "Tasks" m.tasks ++
        (sectionLines "Decisions" m.decisions ++ (sectionLines "Questions" m.questions ++
        sectionLines "Attendees" m.attendees))))
      (sectionLines "Follow-ups" m.follow_ups ++ sectionLines "Risks" m.risks)
      (by simp) (by simp [mdLines, List.append_assoc])
  · exact sectionRendered_of_decomp m _ _
      (["# Meeting Analysis Results\n"] ++ (sectionLines "Tasks" m.tasks ++
        (sectionLines "Decisions" m.decisions ++ (sectionLines "Questions" m.questions ++
        (sectionLines "Attendees" m.attendees ++ sectionLines "Deadlines" m.deadlines)))))
      (sectionLines "Risks" m.risks)
      (by simp) (by simp [mdLines, List.append_assoc])
  · exact sectionRendered_of_decomp m _ _
      (["# Meeting Analysis Results\n"] ++ (sectionLines "Tasks" m.tasks ++
        (sectionLines "Decisions" m.decisions ++ (sectionLines "Questions" m.questions ++
        (sectionLines "Attendees" m.attendees ++ (sectionLines "Deadlines" m.deadlines ++
        sectionLines "Follow-ups" m.follow_ups))))))
      []
      (by simp) (by simp [mdLines, List.append_assoc])

/-- Witness for C5: the concrete task item's fields occur verbatim in the
rendered Tasks section of a concrete insight. -/
theorem to_markdown_contains_items_witness :
    itemInSection sampleItem "Tasks" sampleInsight.tasks := by
  have h := to_markdown_contains_items sampleInsight
  exact h.1.2.2.2 sampleItem (by simp [sampleInsight])

end Automeet

